import Mathlib

/-!
Verification of the bonding-curve swap quotation logic of the token-swap
widget (source file src/unnamed/part_002, lines 152-269).

Modelling conventions of the shallow embedding:
* JavaScript double-precision numbers are modelled as exact rationals;
  all bonding-curve arithmetic is carried out in the rational field.
* BigInt wei amounts are modelled as integers; the conversion
  formatUnits(wei, 18) followed by Number(...) is modelled as exact
  division by 10 ^ 18 in the rationals.
* The field token.totalUsdtRaised is a string in the source.  BigInt(s)
  throws exactly when the string is not a well-formed integer literal, and
  that exception is what the catch branch of getCurrentVirtualReserves
  handles; we model the field as an optional integer, with none standing
  for an unparseable string (the catch branch) and some w for a string
  that parses to the integer w.
* The useEffect quote recomputation (lines 234-257) parses the text field
  with parseFloat; we model its result as an optional rational, none
  standing for NaN (empty or unparseable text).  The effect writes the
  empty string (no quote) exactly when the guard rejects the input, which
  we model as the none result of computeToAmount.
* To reason about non-finite parsed inputs (parseFloat can also produce
  Infinity and -Infinity, for example on the text 1e999), a second, more
  faithful model JSNum of the parsed value distinguishes NaN, +Infinity,
  -Infinity and finite values; the arithmetic operations the effect
  performs on it follow the IEEE-754 extended rules (finite + Infinity =
  Infinity, positive / Infinity = 0, finite - Infinity = -Infinity,
  floor fixes the infinities, and BigInt(x) throws on every non-finite x).
  Signed zero is collapsed to the single rational zero.  The effect body
  has no try/catch of its own, so a throwing BigInt conversion aborts it,
  modelled by the thrown outcome of EffectResult.
-/

namespace TokenSwap

/-- Constant from line 153 of the source: 6000 USDT in natural units. -/
def VIRTUAL_USDT_RESERVE : ℚ := 6000

/-- Constant from line 154 of the source: about 1.073e9 tokens in natural
units. -/
def VIRTUAL_TOKEN_RESERVE : ℚ := 1073000191

/-- Constant from line 155 of the source: the constant-product invariant
k = 6000 * 1073000191. -/
def BONDING_CURVE_K : ℚ := VIRTUAL_USDT_RESERVE * VIRTUAL_TOKEN_RESERVE

/-- Conversion of a wei amount to natural units, the composite
Number(formatUnits(wei, 18)) of the source, modelled as exact division
by 10 ^ 18. -/
def formatUnits18 (wei : ℤ) : ℚ := (wei : ℚ) / 10 ^ 18

/-- The slice of the token object read by the quoter: the field
totalUsdtRaised, a wei-scaled fixed-point string.  none models a string
on which BigInt throws; some w models a string parsing to w. -/
structure TokenState where
  totalUsdtRaised : Option ℤ

/-- Result record of getCurrentVirtualReserves (lines 170-189). -/
structure VirtualReserves where
  virtualUsdtNatural : ℚ
  virtualTokensNatural : ℚ

/-- Embedding of getCurrentVirtualReserves (lines 170-189): derives the
current virtual reserves from totalUsdtRaised; the catch branch returns
the initial constants when the string fails to parse. -/
def getCurrentVirtualReserves (token : TokenState) : VirtualReserves :=
  match token.totalUsdtRaised with
  | none => ⟨VIRTUAL_USDT_RESERVE, VIRTUAL_TOKEN_RESERVE⟩
  | some wei =>
      let totalUsdtRaisedNatural := formatUnits18 wei
      let virtualUsdtNatural := VIRTUAL_USDT_RESERVE + totalUsdtRaisedNatural
      let virtualTokensNatural := BONDING_CURVE_K / virtualUsdtNatural
      ⟨virtualUsdtNatural, virtualTokensNatural⟩

/-- Embedding of calculateTokensToReceive (lines 192-212): the buy
direction, spending usdtAmountWei of the quote asset for tokens. -/
def calculateTokensToReceive (token : TokenState) (usdtAmountWei : ℤ) : ℚ :=
  let r := getCurrentVirtualReserves token
  let usdtAmountNatural := formatUnits18 usdtAmountWei
  let newVirtualUsdtNatural := r.virtualUsdtNatural + usdtAmountNatural
  let newVirtualTokensNatural := BONDING_CURVE_K / newVirtualUsdtNatural
  r.virtualTokensNatural - newVirtualTokensNatural

/-- Embedding of calculateUsdtToReceive (lines 215-231): the sell
direction, selling tokenAmountNatural tokens for the quote asset. -/
def calculateUsdtToReceive (token : TokenState) (tokenAmountNatural : ℚ) : ℚ :=
  let r := getCurrentVirtualReserves token
  let newVirtualTokensNatural := r.virtualTokensNatural + tokenAmountNatural
  let newVirtualUsdtNatural := BONDING_CURVE_K / newVirtualTokensNatural
  r.virtualUsdtNatural - newVirtualUsdtNatural

/-- Embedding of getCurrentPriceNatural (lines 260-269): the spot price
virtualUsdtNatural / virtualTokensNatural. -/
def getCurrentPriceNatural (token : TokenState) : ℚ :=
  let r := getCurrentVirtualReserves token
  r.virtualUsdtNatural / r.virtualTokensNatural

/-- Embedding of the useEffect quote recomputation (lines 234-257).
fromValue is the parseFloat result of the input field, none standing for
NaN; the result none models setToAmount("") (the no-quote display), and
some x models setToAmount rendering the number x.  In the buy direction
the typed value is converted to wei with BigInt(Math.floor(v * 1e18)). -/
def computeToAmount (token : TokenState) (fromValue : Option ℚ)
    (isTokenToUsdt : Bool) : Option ℚ :=
  match fromValue with
  | none => none
  | some v =>
      if v ≤ 0 then none
      else if isTokenToUsdt then some (calculateUsdtToReceive token v)
      else some (calculateTokensToReceive token (Int.floor (v * 10 ^ 18)))

/-- Model of a JavaScript number as produced by parseFloat: NaN, the two
infinities, or a finite value (finite values are exact rationals, as in
the rest of the embedding; signed zero is collapsed). -/
inductive JSNum where
  | nan
  | posInf
  | negInf
  | finite (q : ℚ)
deriving DecidableEq

/-- The isNaN(x) test of the guard on line 241. -/
def jsIsNaN : JSNum → Bool
  | .nan => true
  | _ => false

/-- The x <= 0 comparison of the guard on line 241; every comparison with
NaN is false in JavaScript. -/
def jsLe0 : JSNum → Bool
  | .nan => false
  | .posInf => false
  | .negInf => true
  | .finite q => decide (q ≤ 0)

/-- Addition of a finite number and a JSNum (line 221). -/
def jsAddFin (a : ℚ) : JSNum → JSNum
  | .nan => .nan
  | .posInf => .posInf
  | .negInf => .negInf
  | .finite q => .finite (a + q)

/-- Division of a positive finite number by a JSNum (line 222): a positive
value divided by an infinity gives (signed) zero, and divided by zero
gives an infinity, collapsed here to posInf since zero is unsigned. -/
def jsDivPos (a : ℚ) : JSNum → JSNum
  | .nan => .nan
  | .posInf => .finite 0
  | .negInf => .finite 0
  | .finite q => if q = 0 then .posInf else .finite (a / q)

/-- Subtraction of a JSNum from a finite number (line 225). -/
def jsSubFin (a : ℚ) : JSNum → JSNum
  | .nan => .nan
  | .posInf => .negInf
  | .negInf => .posInf
  | .finite q => .finite (a - q)

/-- Multiplication of a JSNum by a positive finite constant, the
fromValue * 1e18 step of line 252. -/
def jsMulPos (c : ℚ) : JSNum → JSNum
  | .nan => .nan
  | .posInf => .posInf
  | .negInf => .negInf
  | .finite q => .finite (q * c)

/-- The Math.floor step of line 252: fixes NaN and the infinities. -/
def jsFloor : JSNum → JSNum
  | .nan => .nan
  | .posInf => .posInf
  | .negInf => .negInf
  | .finite q => .finite (Int.floor q)

/-- The BigInt(x) conversion of line 252: returns the integer when x is a
finite integral number and throws (none) on NaN, the infinities and
non-integral values. -/
def bigIntOfNumber : JSNum → Option ℤ
  | .finite q => if q.den = 1 then some q.num else none
  | _ => none

/-- Embedding of calculateUsdtToReceive (lines 215-231) over the JSNum
domain, used when the parsed sell amount may be non-finite; the float
arithmetic of the body never throws, so the catch branch is unreachable. -/
def calculateUsdtToReceiveJS (token : TokenState)
    (tokenAmountNatural : JSNum) : JSNum :=
  let r := getCurrentVirtualReserves token
  let newVirtualTokensNatural := jsAddFin r.virtualTokensNatural tokenAmountNatural
  let newVirtualUsdtNatural := jsDivPos BONDING_CURVE_K newVirtualTokensNatural
  jsSubFin r.virtualUsdtNatural newVirtualUsdtNatural

/-- Outcome of one run of the quote-recomputation effect body: it either
throws (uncaught exception), writes the empty no-quote string, or writes
the toFixed rendering of a number. -/
inductive EffectResult where
  | thrown
  | noQuote
  | quote (x : JSNum)
deriving DecidableEq

/-- Embedding of the useEffect quote recomputation (lines 234-257) over
the JSNum domain: the guard line 241 rejects NaN and nonpositive values;
the sell branch runs the float formula on the parsed value as is; the buy
branch first converts it with BigInt(Math.floor(fromValue * 1e18)), which
throws on a non-finite value, aborting the effect. -/
def computeToAmountJS (token : TokenState) (fromValue : JSNum)
    (isTokenToUsdt : Bool) : EffectResult :=
  if jsIsNaN fromValue then .noQuote
  else if jsLe0 fromValue then .noQuote
  else if isTokenToUsdt then .quote (calculateUsdtToReceiveJS token fromValue)
  else
    match bigIntOfNumber (jsFloor (jsMulPos (10 ^ 18) fromValue)) with
    | none => .thrown
    | some w => .quote (.finite (calculateTokensToReceive token w))

/-- Unfolding equation: reserves derived from a parseable state. -/
lemma getCurrentVirtualReserves_some (wei : ℤ) :
    getCurrentVirtualReserves ⟨some wei⟩ =
      ⟨VIRTUAL_USDT_RESERVE + formatUnits18 wei,
        BONDING_CURVE_K / (VIRTUAL_USDT_RESERVE + formatUnits18 wei)⟩ := rfl

/-- Unfolding equation: the buy quote on a parseable state. -/
lemma calculateTokensToReceive_some (wei usdtAmountWei : ℤ) :
    calculateTokensToReceive ⟨some wei⟩ usdtAmountWei =
      BONDING_CURVE_K / (VIRTUAL_USDT_RESERVE + formatUnits18 wei)
        - BONDING_CURVE_K / (VIRTUAL_USDT_RESERVE + formatUnits18 wei
            + formatUnits18 usdtAmountWei) := rfl

/-- Unfolding equation: the sell quote on a parseable state. -/
lemma calculateUsdtToReceive_some (wei : ℤ) (t : ℚ) :
    calculateUsdtToReceive ⟨some wei⟩ t =
      (VIRTUAL_USDT_RESERVE + formatUnits18 wei)
        - BONDING_CURVE_K /
            (BONDING_CURVE_K / (VIRTUAL_USDT_RESERVE + formatUnits18 wei)
              + t) := rfl

/-- Positivity of the constant-product invariant. -/
lemma BONDING_CURVE_K_pos : 0 < BONDING_CURVE_K := by
  norm_num [BONDING_CURVE_K, VIRTUAL_USDT_RESERVE, VIRTUAL_TOKEN_RESERVE]

/-- Strict antitonicity of x ↦ K / x on positive arguments. -/
lemma qdiv_lt_qdiv (K x y : ℚ) (hK : 0 < K) (hx : 0 < x) (hxy : x < y) :
    K / y < K / x := by
  rw [div_lt_div_iff₀ (by linarith) hx]
  nlinarith

/-- Antitonicity of x ↦ K / x on positive arguments. -/
lemma qdiv_le_qdiv (K x y : ℚ) (hK : 0 ≤ K) (hx : 0 < x) (hxy : x ≤ y) :
    K / y ≤ K / x := by
  rcases eq_or_lt_of_le hxy with h | h
  · rw [h]
  · rw [div_le_div_iff₀ (by linarith) hx]
    nlinarith

/-- Double division cancels: K / (K / x) = x when K is nonzero. -/
lemma K_div_div (K x : ℚ) (hK : K ≠ 0) (hx : x ≠ 0) : K / (K / x) = x := by
  field_simp

/-- Bounds for the sell formula: selling t > 0 on reserves (vq, K / vq)
pays out strictly between 0 and vq. -/
lemma sell_bounds (K vq t : ℚ) (hK : 0 < K) (hvq : 0 < vq) (ht : 0 < t) :
    0 < vq - K / (K / vq + t) ∧ vq - K / (K / vq + t) < vq := by
  have hvb : 0 < K / vq := div_pos hK hvq
  have hden : 0 < K / vq + t := by linarith
  constructor
  · have h1 : K / (K / vq + t) < K / (K / vq) :=
      qdiv_lt_qdiv K (K / vq) (K / vq + t) hK hvb (by linarith)
    rw [K_div_div K vq (ne_of_gt hK) (ne_of_gt hvq)] at h1
    linarith
  · have h2 : 0 < K / (K / vq + t) := div_pos hK hden
    linarith

/-- Bounds for the buy formula: spending b > 0 on reserves (vq, K / vq)
pays out strictly between 0 and K / vq. -/
lemma buy_bounds (K vq b : ℚ) (hK : 0 < K) (hvq : 0 < vq) (hb : 0 < b) :
    0 < K / vq - K / (vq + b) ∧ K / vq - K / (vq + b) < K / vq := by
  have h1 : K / (vq + b) < K / vq :=
    qdiv_lt_qdiv K vq (vq + b) hK hvq (by linarith)
  have h2 : 0 < K / (vq + b) := div_pos hK (by linarith)
  exact ⟨by linarith, by linarith⟩

/-- Strict monotonicity of the sell formula in the input amount. -/
lemma sell_mono (K vq a b : ℚ) (hK : 0 < K) (hvq : 0 < vq)
    (ha : 0 < a) (hab : a < b) :
    vq - K / (K / vq + a) < vq - K / (K / vq + b) := by
  have hvb : 0 < K / vq := div_pos hK hvq
  have h1 : K / (K / vq + b) < K / (K / vq + a) :=
    qdiv_lt_qdiv K (K / vq + a) (K / vq + b) hK (by linarith) (by linarith)
  linarith

/-- Strict monotonicity of the buy formula in the input amount. -/
lemma buy_mono (K vq a b : ℚ) (hK : 0 < K) (hvq : 0 < vq)
    (ha : 0 < a) (hab : a < b) :
    K / vq - K / (vq + a) < K / vq - K / (vq + b) := by
  have h1 : K / (vq + b) < K / (vq + a) :=
    qdiv_lt_qdiv K (vq + a) (vq + b) hK (by linarith) (by linarith)
  linarith

/-- Round trip on a static state: selling a and then spending the whole
proceeds on a buy returns at most a. -/
lemma roundtrip_le (K vq a : ℚ) (hK : 0 < K) (hvq : 0 < vq) (ha : 0 < a) :
    K / vq - K / (vq + (vq - K / (K / vq + a))) ≤ a := by
  have hvb : 0 < K / vq := div_pos hK hvq
  set vb := K / vq with hvb_def
  have hKeq : vq * vb = K := by rw [hvb_def]; field_simp
  have hu : 0 < vb + a := by linarith
  have hq2 : vq + (vq - K / (vb + a)) = vq * (vb + 2 * a) / (vb + a) := by
    rw [eq_div_iff (ne_of_gt hu)]
    field_simp
    nlinarith [hKeq]
  have h2a : 0 < vb + 2 * a := by linarith
  rw [sub_le_iff_le_add, ← sub_le_iff_le_add', hq2, div_div_eq_mul_div,
    le_div_iff₀ (by positivity)]
  nlinarith [mul_pos hvq (mul_pos ha ha)]

/-- Counterexample for C1 as stated: with zero raised and a buy of 100
quote units, the output is exactly 1073000191 / 61, about 17590167.07
base units, which differs from the value 17590355 asserted by the claim
by more than 100 base units. -/
theorem calculateTokensToReceive_concrete_counterexample :
    calculateTokensToReceive ⟨some 0⟩ (100 * 10 ^ 18) = 1073000191 / 61
    ∧ 100 < |calculateTokensToReceive ⟨some 0⟩ (100 * 10 ^ 18) - 17590355| := by
  have hval : calculateTokensToReceive ⟨some 0⟩ (100 * 10 ^ 18)
      = 1073000191 / 61 := by
    rw [calculateTokensToReceive_some]
    norm_num [formatUnits18, VIRTUAL_USDT_RESERVE, BONDING_CURVE_K,
      VIRTUAL_TOKEN_RESERVE]
  refine ⟨hval, ?_⟩
  rw [hval, abs_of_nonpos (by norm_num)]
  norm_num

/-- C1 amended: for every market state with nonnegative cumulative quote
raised and every positive buy amount, calculateTokensToReceive returns
virtualBase - invariantK / (virtualQuote + quoteAmount), where
virtualQuote = 6000 + cumulativeQuoteRaised, virtualBase =
invariantK / virtualQuote and invariantK = 6000 * 1073000191; concretely,
with zero raised and a quote amount of 100, the new virtual quote reserve
is 6100 and the output is approximately 17590167 base units (relative
error below one part in a million), not 17590355 as the claim states. -/
theorem calculateTokensToReceive_formula (wei q : ℤ) (hw : 0 ≤ wei)
    (hq : 0 < q) :
    calculateTokensToReceive ⟨some wei⟩ q =
      BONDING_CURVE_K / (VIRTUAL_USDT_RESERVE + formatUnits18 wei)
        - BONDING_CURVE_K / (VIRTUAL_USDT_RESERVE + formatUnits18 wei
            + formatUnits18 q)
    ∧ VIRTUAL_USDT_RESERVE + formatUnits18 0 + formatUnits18 (100 * 10 ^ 18)
        = 6100
    ∧ |calculateTokensToReceive ⟨some 0⟩ (100 * 10 ^ 18) - 17590167| * 10 ^ 6
        < 17590167 := by
  refine ⟨calculateTokensToReceive_some wei q, ?_, ?_⟩
  · norm_num [formatUnits18, VIRTUAL_USDT_RESERVE]
  · have hval : calculateTokensToReceive ⟨some 0⟩ (100 * 10 ^ 18)
        = 1073000191 / 61 := by
      rw [calculateTokensToReceive_some]
      norm_num [formatUnits18, VIRTUAL_USDT_RESERVE, BONDING_CURVE_K,
        VIRTUAL_TOKEN_RESERVE]
    rw [hval, abs_of_nonneg (by norm_num)]
    norm_num

/-- Witness for C1 at the concrete scenario of the claim. -/
theorem calculateTokensToReceive_formula_witness :
    calculateTokensToReceive ⟨some 0⟩ (100 * 10 ^ 18) =
      BONDING_CURVE_K / (VIRTUAL_USDT_RESERVE + formatUnits18 0)
        - BONDING_CURVE_K / (VIRTUAL_USDT_RESERVE + formatUnits18 0
            + formatUnits18 (100 * 10 ^ 18)) :=
  (calculateTokensToReceive_formula 0 (100 * 10 ^ 18) (by norm_num)
    (by norm_num)).1

/-- C2: for every market state with nonnegative cumulative quote raised
and every positive sell amount, calculateUsdtToReceive returns
virtualQuote - invariantK / (virtualBase + tokenAmount), where
virtualQuote = 6000 + cumulativeQuoteRaised and virtualBase =
invariantK / virtualQuote. -/
theorem calculateUsdtToReceive_formula (wei : ℤ) (t : ℚ) (hw : 0 ≤ wei)
    (ht : 0 < t) :
    calculateUsdtToReceive ⟨some wei⟩ t =
      (VIRTUAL_USDT_RESERVE + formatUnits18 wei)
        - BONDING_CURVE_K /
            (BONDING_CURVE_K / (VIRTUAL_USDT_RESERVE + formatUnits18 wei)
              + t) :=
  calculateUsdtToReceive_some wei t

/-- Witness for C2 at a concrete state and amount. -/
theorem calculateUsdtToReceive_formula_witness :
    calculateUsdtToReceive ⟨some 0⟩ 1 =
      (VIRTUAL_USDT_RESERVE + formatUnits18 0)
        - BONDING_CURVE_K /
            (BONDING_CURVE_K / (VIRTUAL_USDT_RESERVE + formatUnits18 0)
              + 1) :=
  calculateUsdtToReceive_formula 0 1 (by norm_num) (by norm_num)

/-- Coherence of the two pipeline models: on a finite positive parsed
value the JSNum sell path agrees with the rational model. -/
lemma calculateUsdtToReceiveJS_finite (token : TokenState) (t : ℚ)
    (h : (getCurrentVirtualReserves token).virtualTokensNatural + t ≠ 0) :
    calculateUsdtToReceiveJS token (JSNum.finite t)
      = JSNum.finite (calculateUsdtToReceive token t) := by
  rw [calculateUsdtToReceiveJS, calculateUsdtToReceive, jsAddFin, jsDivPos]
  rw [if_neg h, jsSubFin]

/-- A value passing the nonpositivity test is not NaN. -/
lemma jsLe0_not_nan (v : JSNum) (h : jsLe0 v = true) : jsIsNaN v = false := by
  cases v <;> simp_all [jsIsNaN, jsLe0]

/-- Counterexample for C3 as stated: a parsed +Infinity (for example from
the text 1e999) is neither NaN nor nonpositive, so it passes the guard;
at raised 0 the sell direction then displays the phantom finite quote
6000 (the whole virtual quote reserve) instead of the no-quote result,
and the buy direction throws inside BigInt(Math.floor(Infinity * 1e18)). -/
theorem computeToAmountJS_infinity_counterexample :
    computeToAmountJS ⟨some 0⟩ JSNum.posInf true
        = EffectResult.quote (JSNum.finite 6000)
    ∧ computeToAmountJS ⟨some 0⟩ JSNum.posInf false = EffectResult.thrown := by
  constructor
  · rw [computeToAmountJS]
    have h6000 : (getCurrentVirtualReserves ⟨some 0⟩).virtualUsdtNatural
        = 6000 := by
      rw [getCurrentVirtualReserves_some]
      norm_num [formatUnits18, VIRTUAL_USDT_RESERVE]
    rw [show calculateUsdtToReceiveJS ⟨some 0⟩ JSNum.posInf
        = JSNum.finite ((getCurrentVirtualReserves ⟨some 0⟩).virtualUsdtNatural
            - 0) from rfl]
    rw [h6000]
    norm_num
    rfl
  · rfl

/-- C3 amended: for every parsed input that is NaN, zero or negative
(every finite nonpositive value, NaN and -Infinity alike), both
directions of the quote recomputation yield the no-quote result without
throwing and without displaying any non-finite value; a parsed +Infinity
however passes the guard: the sell direction displays the current
virtual quote reserve as a phantom finite quote and the buy direction
throws in the BigInt conversion, aborting the effect. -/
theorem computeToAmountJS_invalid_input (token : TokenState)
    (isTokenToUsdt : Bool) (v : JSNum)
    (h : jsIsNaN v = true ∨ jsLe0 v = true) :
    computeToAmountJS token v isTokenToUsdt = EffectResult.noQuote
    ∧ computeToAmountJS token JSNum.posInf true
        = EffectResult.quote (JSNum.finite
            ((getCurrentVirtualReserves token).virtualUsdtNatural))
    ∧ computeToAmountJS token JSNum.posInf false = EffectResult.thrown := by
  refine ⟨?_, ?_, rfl⟩
  · rcases h with h | h
    · rw [computeToAmountJS, if_pos h]
    · rw [computeToAmountJS, jsLe0_not_nan v h]
      simp [h]
  · rw [computeToAmountJS]
    rw [show calculateUsdtToReceiveJS token JSNum.posInf
        = JSNum.finite ((getCurrentVirtualReserves token).virtualUsdtNatural
            - 0) from rfl]
    norm_num
    rfl

/-- Witness for the amended C3 at a concrete state and inputs. -/
theorem computeToAmountJS_invalid_input_witness :
    computeToAmountJS ⟨some 0⟩ (JSNum.finite (-1)) true = EffectResult.noQuote
    ∧ computeToAmountJS ⟨some 0⟩ JSNum.posInf true
        = EffectResult.quote (JSNum.finite
            ((getCurrentVirtualReserves ⟨some 0⟩).virtualUsdtNatural))
    ∧ computeToAmountJS ⟨some 0⟩ JSNum.posInf false = EffectResult.thrown :=
  computeToAmountJS_invalid_input ⟨some 0⟩ true (JSNum.finite (-1))
    (Or.inr (by norm_num [jsLe0]))

/-- Counterexample for C4 as stated: with cumulativeQuoteRaised = -12000
(wei -12000e18) the derived reserves are negative, yet the buy quote for
100 quote units is 1073000191 / 59, about 18.19 million base units, not a
zero quote. -/
theorem degenerate_state_counterexample :
    calculateTokensToReceive ⟨some (-12000 * 10 ^ 18)⟩ (100 * 10 ^ 18)
        = 1073000191 / 59
    ∧ calculateTokensToReceive ⟨some (-12000 * 10 ^ 18)⟩ (100 * 10 ^ 18)
        ≠ 0 := by
  have hval : calculateTokensToReceive ⟨some (-12000 * 10 ^ 18)⟩
      (100 * 10 ^ 18) = 1073000191 / 59 := by
    rw [calculateTokensToReceive_some]
    norm_num [formatUnits18, VIRTUAL_USDT_RESERVE, BONDING_CURVE_K,
      VIRTUAL_TOKEN_RESERVE]
  exact ⟨hval, by rw [hval]; norm_num⟩

/-- C4 amended: the zero-quote fallback exists only for a totalUsdtRaised
string on which BigInt throws, in which case the reserves fall back to
the initial constants; a parseable negative cumulativeQuoteRaised is not
guarded against, and both quote operations apply the raw constant-product
formula to the possibly negative derived reserves. -/
theorem degenerate_state_unguarded (wei q : ℤ) (t : ℚ) (hw : wei < 0)
    (hq : 0 < q) (ht : 0 < t) :
    getCurrentVirtualReserves ⟨none⟩
        = ⟨VIRTUAL_USDT_RESERVE, VIRTUAL_TOKEN_RESERVE⟩
    ∧ calculateTokensToReceive ⟨some wei⟩ q =
        BONDING_CURVE_K / (VIRTUAL_USDT_RESERVE + formatUnits18 wei)
          - BONDING_CURVE_K / (VIRTUAL_USDT_RESERVE + formatUnits18 wei
              + formatUnits18 q)
    ∧ calculateUsdtToReceive ⟨some wei⟩ t =
        (VIRTUAL_USDT_RESERVE + formatUnits18 wei)
          - BONDING_CURVE_K /
              (BONDING_CURVE_K / (VIRTUAL_USDT_RESERVE + formatUnits18 wei)
                + t) :=
  ⟨rfl, calculateTokensToReceive_some wei q, calculateUsdtToReceive_some wei t⟩

/-- Witness for the amended C4 at a concrete degenerate state. -/
theorem degenerate_state_unguarded_witness :
    getCurrentVirtualReserves ⟨none⟩
        = ⟨VIRTUAL_USDT_RESERVE, VIRTUAL_TOKEN_RESERVE⟩
    ∧ calculateTokensToReceive ⟨some (-1)⟩ 1 =
        BONDING_CURVE_K / (VIRTUAL_USDT_RESERVE + formatUnits18 (-1))
          - BONDING_CURVE_K / (VIRTUAL_USDT_RESERVE + formatUnits18 (-1)
              + formatUnits18 1)
    ∧ calculateUsdtToReceive ⟨some (-1)⟩ 1 =
        (VIRTUAL_USDT_RESERVE + formatUnits18 (-1))
          - BONDING_CURVE_K /
              (BONDING_CURVE_K / (VIRTUAL_USDT_RESERVE + formatUnits18 (-1))
                + 1) :=
  degenerate_state_unguarded (-1) 1 1 (by norm_num) (by norm_num) (by norm_num)

/-- C5: on a state with positive virtual reserves, every positive sell
amount yields an output between 0 and the current virtual quote reserve,
and every positive buy amount yields an output between 0 and the current
virtual base reserve. -/
theorem quote_output_bounds (wei q : ℤ) (t : ℚ)
    (hvq : 0 < VIRTUAL_USDT_RESERVE + formatUnits18 wei)
    (hq : 0 < q) (ht : 0 < t) :
    0 ≤ calculateUsdtToReceive ⟨some wei⟩ t
    ∧ calculateUsdtToReceive ⟨some wei⟩ t
        < (getCurrentVirtualReserves ⟨some wei⟩).virtualUsdtNatural
    ∧ 0 ≤ calculateTokensToReceive ⟨some wei⟩ q
    ∧ calculateTokensToReceive ⟨some wei⟩ q
        < (getCurrentVirtualReserves ⟨some wei⟩).virtualTokensNatural := by
  have hK : 0 < BONDING_CURVE_K := BONDING_CURVE_K_pos
  have hqn : 0 < formatUnits18 q := by
    rw [formatUnits18]
    have : (0 : ℚ) < (q : ℚ) := by exact_mod_cast hq
    positivity
  have hsell := sell_bounds BONDING_CURVE_K
    (VIRTUAL_USDT_RESERVE + formatUnits18 wei) t hK hvq ht
  have hbuy := buy_bounds BONDING_CURVE_K
    (VIRTUAL_USDT_RESERVE + formatUnits18 wei) (formatUnits18 q) hK hvq hqn
  rw [calculateUsdtToReceive_some, calculateTokensToReceive_some,
    getCurrentVirtualReserves_some]
  exact ⟨le_of_lt hsell.1, hsell.2, le_of_lt hbuy.1, hbuy.2⟩

/-- Witness for C5 at a concrete state and amounts. -/
theorem quote_output_bounds_witness :
    0 ≤ calculateUsdtToReceive ⟨some 0⟩ 1
    ∧ calculateUsdtToReceive ⟨some 0⟩ 1
        < (getCurrentVirtualReserves ⟨some 0⟩).virtualUsdtNatural
    ∧ 0 ≤ calculateTokensToReceive ⟨some 0⟩ 1
    ∧ calculateTokensToReceive ⟨some 0⟩ 1
        < (getCurrentVirtualReserves ⟨some 0⟩).virtualTokensNatural :=
  quote_output_bounds 0 1 1
    (by norm_num [formatUnits18, VIRTUAL_USDT_RESERVE]) (by norm_num)
    (by norm_num)

/-- C6: on a fixed state with positive virtual reserves, both quote
operations are strictly increasing in their input amount. -/
theorem quote_output_strict_mono (wei : ℤ) (a b : ℚ) (qa qb : ℤ)
    (hvq : 0 < VIRTUAL_USDT_RESERVE + formatUnits18 wei)
    (ha : 0 < a) (hab : a < b) (hqa : 0 < qa) (hqab : qa < qb) :
    calculateUsdtToReceive ⟨some wei⟩ a < calculateUsdtToReceive ⟨some wei⟩ b
    ∧ calculateTokensToReceive ⟨some wei⟩ qa
        < calculateTokensToReceive ⟨some wei⟩ qb := by
  have hK : 0 < BONDING_CURVE_K := BONDING_CURVE_K_pos
  have hqan : 0 < formatUnits18 qa := by
    rw [formatUnits18]
    have : (0 : ℚ) < (qa : ℚ) := by exact_mod_cast hqa
    positivity
  have hqabn : formatUnits18 qa < formatUnits18 qb := by
    rw [formatUnits18, formatUnits18]
    have : (qa : ℚ) < (qb : ℚ) := by exact_mod_cast hqab
    have h18 : (0 : ℚ) < 10 ^ 18 := by norm_num
    exact div_lt_div_of_pos_right this h18
  constructor
  · rw [calculateUsdtToReceive_some, calculateUsdtToReceive_some]
    exact sell_mono BONDING_CURVE_K
      (VIRTUAL_USDT_RESERVE + formatUnits18 wei) a b hK hvq ha hab
  · rw [calculateTokensToReceive_some, calculateTokensToReceive_some]
    exact buy_mono BONDING_CURVE_K
      (VIRTUAL_USDT_RESERVE + formatUnits18 wei)
      (formatUnits18 qa) (formatUnits18 qb) hK hvq hqan hqabn

/-- Witness for C6 at concrete amounts. -/
theorem quote_output_strict_mono_witness :
    calculateUsdtToReceive ⟨some 0⟩ 1 < calculateUsdtToReceive ⟨some 0⟩ 2
    ∧ calculateTokensToReceive ⟨some 0⟩ 1 < calculateTokensToReceive ⟨some 0⟩ 2 :=
  quote_output_strict_mono 0 1 2 1 2
    (by norm_num [formatUnits18, VIRTUAL_USDT_RESERVE]) (by norm_num)
    (by norm_num) (by norm_num) (by norm_num)

/-- C7: on a fixed state with positive virtual reserves, selling t tokens
and then spending the resulting quote output on a buy (converted to wei by
the caller exactly as the widget does, with the floor of the product by
1e18) returns at most t tokens: no single-round-trip arbitrage through the
curve under a static state. -/
theorem roundtrip_no_arbitrage (wei : ℤ) (t : ℚ)
    (hvq : 0 < VIRTUAL_USDT_RESERVE + formatUnits18 wei) (ht : 0 < t) :
    calculateTokensToReceive ⟨some wei⟩
        (Int.floor (calculateUsdtToReceive ⟨some wei⟩ t * 10 ^ 18)) ≤ t := by
  have hK : 0 < BONDING_CURVE_K := BONDING_CURVE_K_pos
  set vq := VIRTUAL_USDT_RESERVE + formatUnits18 wei with hvq_def
  have hqpos : 0 < calculateUsdtToReceive ⟨some wei⟩ t := by
    rw [calculateUsdtToReceive_some]
    exact (sell_bounds BONDING_CURVE_K vq t hK hvq ht).1
  set qout := calculateUsdtToReceive ⟨some wei⟩ t with hq_def
  have hb1 : 0 ≤ formatUnits18 (Int.floor (qout * 10 ^ 18)) := by
    rw [formatUnits18]
    have : (0 : ℚ) ≤ (Int.floor (qout * 10 ^ 18) : ℚ) := by
      exact_mod_cast Int.floor_nonneg.mpr (by positivity)
    positivity
  have hb1q : formatUnits18 (Int.floor (qout * 10 ^ 18)) ≤ qout := by
    rw [formatUnits18, div_le_iff₀ (by norm_num : (0 : ℚ) < 10 ^ 18)]
    exact Int.floor_le _
  rw [calculateTokensToReceive_some]
  have hmono : BONDING_CURVE_K / vq - BONDING_CURVE_K
        / (vq + formatUnits18 (Int.floor (qout * 10 ^ 18)))
      ≤ BONDING_CURVE_K / vq - BONDING_CURVE_K / (vq + qout) := by
    have := qdiv_le_qdiv BONDING_CURVE_K
      (vq + formatUnits18 (Int.floor (qout * 10 ^ 18))) (vq + qout)
      (le_of_lt hK) (by linarith) (by linarith)
    linarith
  have hround : BONDING_CURVE_K / vq - BONDING_CURVE_K / (vq + qout) ≤ t := by
    have hqe : qout = vq - BONDING_CURVE_K / (BONDING_CURVE_K / vq + t) := by
      rw [hq_def, calculateUsdtToReceive_some]
    rw [hqe]
    exact roundtrip_le BONDING_CURVE_K vq t hK hvq ht
  linarith

/-- Witness for C7 at a concrete state and amount. -/
theorem roundtrip_no_arbitrage_witness :
    calculateTokensToReceive ⟨some 0⟩
        (Int.floor (calculateUsdtToReceive ⟨some 0⟩ 1000000 * 10 ^ 18))
      ≤ 1000000 :=
  roundtrip_no_arbitrage 0 1000000
    (by norm_num [formatUnits18, VIRTUAL_USDT_RESERVE]) (by norm_num)

/-- C8: for every state with nonnegative cumulative quote raised and
positive trade amounts, the product of the derived virtual reserves equals
the invariant within relative tolerance 1e-9, both for the current
reserves and for the post-trade reserves formed inside either quote
operation (in the rational model the products are exactly the invariant,
so the tolerance bound holds with slack). -/
theorem invariant_preserved (wei q : ℤ) (t : ℚ) (hw : 0 ≤ wei) (hq : 0 < q)
    (ht : 0 < t) :
    |(getCurrentVirtualReserves ⟨some wei⟩).virtualUsdtNatural
        * (getCurrentVirtualReserves ⟨some wei⟩).virtualTokensNatural
        - BONDING_CURVE_K| ≤ BONDING_CURVE_K / 10 ^ 9
    ∧ |((getCurrentVirtualReserves ⟨some wei⟩).virtualUsdtNatural
          + formatUnits18 q)
        * (BONDING_CURVE_K /
            ((getCurrentVirtualReserves ⟨some wei⟩).virtualUsdtNatural
              + formatUnits18 q))
        - BONDING_CURVE_K| ≤ BONDING_CURVE_K / 10 ^ 9
    ∧ |(BONDING_CURVE_K /
          ((getCurrentVirtualReserves ⟨some wei⟩).virtualTokensNatural + t))
        * ((getCurrentVirtualReserves ⟨some wei⟩).virtualTokensNatural + t)
        - BONDING_CURVE_K| ≤ BONDING_CURVE_K / 10 ^ 9 := by
  have hK : 0 < BONDING_CURVE_K := BONDING_CURVE_K_pos
  have hwq : 0 ≤ formatUnits18 wei := by
    rw [formatUnits18]
    have : (0 : ℚ) ≤ (wei : ℚ) := by exact_mod_cast hw
    positivity
  have hvq : 0 < VIRTUAL_USDT_RESERVE + formatUnits18 wei := by
    have : (0 : ℚ) < VIRTUAL_USDT_RESERVE := by norm_num [VIRTUAL_USDT_RESERVE]
    linarith
  have hqn : 0 < formatUnits18 q := by
    rw [formatUnits18]
    have : (0 : ℚ) < (q : ℚ) := by exact_mod_cast hq
    positivity
  have hvb : 0 < BONDING_CURVE_K / (VIRTUAL_USDT_RESERVE + formatUnits18 wei) :=
    div_pos hK hvq
  have htol : (0 : ℚ) ≤ BONDING_CURVE_K / 10 ^ 9 := by positivity
  rw [getCurrentVirtualReserves_some]
  refine ⟨?_, ?_, ?_⟩
  · have hprod : (VIRTUAL_USDT_RESERVE + formatUnits18 wei)
        * (BONDING_CURVE_K / (VIRTUAL_USDT_RESERVE + formatUnits18 wei))
        = BONDING_CURVE_K := by
      field_simp
    simp only [hprod, sub_self, abs_zero]
    exact htol
  · have hden : VIRTUAL_USDT_RESERVE + formatUnits18 wei + formatUnits18 q
        ≠ 0 := by positivity
    have hprod : (VIRTUAL_USDT_RESERVE + formatUnits18 wei + formatUnits18 q)
        * (BONDING_CURVE_K /
            (VIRTUAL_USDT_RESERVE + formatUnits18 wei + formatUnits18 q))
        = BONDING_CURVE_K := by
      field_simp
    simp only [hprod, sub_self, abs_zero]
    exact htol
  · have hden : BONDING_CURVE_K / (VIRTUAL_USDT_RESERVE + formatUnits18 wei)
        + t ≠ 0 := by positivity
    have hprod : BONDING_CURVE_K /
          (BONDING_CURVE_K / (VIRTUAL_USDT_RESERVE + formatUnits18 wei) + t)
        * (BONDING_CURVE_K / (VIRTUAL_USDT_RESERVE + formatUnits18 wei) + t)
        = BONDING_CURVE_K := div_mul_cancel₀ BONDING_CURVE_K hden
    simp only [hprod, sub_self, abs_zero]
    exact htol

/-- Witness for C8 at a concrete state and amounts. -/
theorem invariant_preserved_witness :
    |(getCurrentVirtualReserves ⟨some 0⟩).virtualUsdtNatural
        * (getCurrentVirtualReserves ⟨some 0⟩).virtualTokensNatural
        - BONDING_CURVE_K| ≤ BONDING_CURVE_K / 10 ^ 9
    ∧ |((getCurrentVirtualReserves ⟨some 0⟩).virtualUsdtNatural
          + formatUnits18 1)
        * (BONDING_CURVE_K /
            ((getCurrentVirtualReserves ⟨some 0⟩).virtualUsdtNatural
              + formatUnits18 1))
        - BONDING_CURVE_K| ≤ BONDING_CURVE_K / 10 ^ 9
    ∧ |(BONDING_CURVE_K /
          ((getCurrentVirtualReserves ⟨some 0⟩).virtualTokensNatural + 1))
        * ((getCurrentVirtualReserves ⟨some 0⟩).virtualTokensNatural + 1)
        - BONDING_CURVE_K| ≤ BONDING_CURVE_K / 10 ^ 9 :=
  invariant_preserved 0 1 1 (by norm_num) (by norm_num) (by norm_num)

/-- Unfolding equation: the spot price on a parseable state. -/
lemma getCurrentPriceNatural_some (wei : ℤ) :
    getCurrentPriceNatural ⟨some wei⟩ =
      (VIRTUAL_USDT_RESERVE + formatUnits18 wei)
        / (BONDING_CURVE_K / (VIRTUAL_USDT_RESERVE + formatUnits18 wei)) := rfl

/-- C9: the spot price equals (6000 + cumulativeQuoteRaised) squared over
the invariant, and is strictly increasing in the cumulative quote raised
for nonnegative raises. -/
theorem getCurrentPriceNatural_strict_mono (w1 w2 : ℤ) (h1 : 0 ≤ w1)
    (h12 : w1 < w2) :
    getCurrentPriceNatural ⟨some w1⟩ < getCurrentPriceNatural ⟨some w2⟩
    ∧ getCurrentPriceNatural ⟨some w1⟩
        = (VIRTUAL_USDT_RESERVE + formatUnits18 w1) ^ 2 / BONDING_CURVE_K := by
  have hK : 0 < BONDING_CURVE_K := BONDING_CURVE_K_pos
  have hsq : ∀ w : ℤ, getCurrentPriceNatural ⟨some w⟩
      = (VIRTUAL_USDT_RESERVE + formatUnits18 w) ^ 2 / BONDING_CURVE_K := by
    intro w
    rw [getCurrentPriceNatural_some, div_div_eq_mul_div, sq]
  have hw1 : 0 ≤ formatUnits18 w1 := by
    rw [formatUnits18]
    have : (0 : ℚ) ≤ (w1 : ℚ) := by exact_mod_cast h1
    positivity
  have hw12 : formatUnits18 w1 < formatUnits18 w2 := by
    rw [formatUnits18, formatUnits18]
    have : (w1 : ℚ) < (w2 : ℚ) := by exact_mod_cast h12
    exact div_lt_div_of_pos_right this (by norm_num)
  have h6000 : (0 : ℚ) < VIRTUAL_USDT_RESERVE := by
    norm_num [VIRTUAL_USDT_RESERVE]
  have hA : 0 < VIRTUAL_USDT_RESERVE + formatUnits18 w1 := by linarith
  have hAB : VIRTUAL_USDT_RESERVE + formatUnits18 w1
      < VIRTUAL_USDT_RESERVE + formatUnits18 w2 := by linarith
  have hsqlt : (VIRTUAL_USDT_RESERVE + formatUnits18 w1) ^ 2
      < (VIRTUAL_USDT_RESERVE + formatUnits18 w2) ^ 2 := by nlinarith
  refine ⟨?_, hsq w1⟩
  rw [hsq w1, hsq w2, div_lt_div_iff₀ hK hK]
  exact mul_lt_mul_of_pos_right hsqlt hK

/-- Witness for C9 at concrete raise levels. -/
theorem getCurrentPriceNatural_strict_mono_witness :
    getCurrentPriceNatural ⟨some 0⟩ < getCurrentPriceNatural ⟨some (10 ^ 18)⟩
    ∧ getCurrentPriceNatural ⟨some 0⟩
        = (VIRTUAL_USDT_RESERVE + formatUnits18 0) ^ 2 / BONDING_CURVE_K :=
  getCurrentPriceNatural_strict_mono 0 (10 ^ 18) (by norm_num) (by norm_num)

/-- C10: in the buy direction the quote recomputation converts the typed
value v to wei as the floor of v * 1e18, so the quote is computed on
floor(v * 1e18) / 1e18 rather than on v; for every v strictly between 0
and 1e-18 the wei amount is 0 and the quoted output is exactly 0. -/
theorem buy_conversion_floor (wei : ℤ) (v : ℚ) (hv : 0 < v) :
    computeToAmount ⟨some wei⟩ (some v) false
        = some (calculateTokensToReceive ⟨some wei⟩ (Int.floor (v * 10 ^ 18)))
    ∧ calculateTokensToReceive ⟨some wei⟩ (Int.floor (v * 10 ^ 18))
        = BONDING_CURVE_K / (VIRTUAL_USDT_RESERVE + formatUnits18 wei)
          - BONDING_CURVE_K / (VIRTUAL_USDT_RESERVE + formatUnits18 wei
              + (Int.floor (v * 10 ^ 18) : ℚ) / 10 ^ 18)
    ∧ (v < 1 / 10 ^ 18 →
        Int.floor (v * 10 ^ 18) = 0
        ∧ computeToAmount ⟨some wei⟩ (some v) false = some 0) := by
  have hnotle : ¬ v ≤ 0 := not_le.mpr hv
  refine ⟨?_, calculateTokensToReceive_some wei (Int.floor (v * 10 ^ 18)), ?_⟩
  · simp [computeToAmount, hnotle]
  · intro hvsmall
    have hfl : Int.floor (v * 10 ^ 18) = 0 := by
      rw [Int.floor_eq_zero_iff]
      constructor
      · positivity
      · have h18 : (0 : ℚ) < 10 ^ 18 := by norm_num
        calc v * 10 ^ 18 < (1 / 10 ^ 18) * 10 ^ 18 := by
              exact mul_lt_mul_of_pos_right hvsmall h18
          _ = 1 := by norm_num
    have hzero : calculateTokensToReceive ⟨some wei⟩ 0 = 0 := by
      rw [calculateTokensToReceive_some]
      norm_num [formatUnits18]
    refine ⟨hfl, ?_⟩
    simp [computeToAmount, hnotle, hfl, hzero]

/-- Witness for C10 at a concrete sub-wei value. -/
theorem buy_conversion_floor_witness :
    computeToAmount ⟨some 0⟩ (some (1 / (2 * 10 ^ 18))) false = some 0 :=
  ((buy_conversion_floor 0 (1 / (2 * 10 ^ 18)) (by norm_num)).2.2
    (by norm_num)).2

end TokenSwap
